import Mathlib

/-!
Shallow embedding of the decision core of the TestPilot_AI exploratory-testing
agent (package `agentic_reasoning`): the exploration policy, risk policy,
control router, baseline stability check, forward-progress invariant, and the
action-planner node, translated from the Python source.  Numeric values are
modelled as rationals (the source works with Python floats; every constant
appearing in the checks and claims is an exact decimal).  Python dictionaries
keyed by strings are modelled as functions `String → Option _` with the
source's `dict.get(k, default)` semantics.
-/

/-- Severity levels of an anomaly.  Modelled from the spec: the schema module
`agentic_reasoning/schemas/anomaly_report.py` is not part of the provided
sources; the spec fixes `severity ∈ {LOW, MEDIUM, HIGH}`. -/
inductive AnomalySeverity where
  | LOW
  | MEDIUM
  | HIGH
deriving DecidableEq, Repr

/-- Anomaly categories.  Modelled from the spec: the schema module is not in
the provided sources; the spec fixes
`category ∈ {INVARIANT_VIOLATION, REGRESSION, INSTABILITY}`. -/
inductive AnomalyCategory where
  | INVARIANT_VIOLATION
  | REGRESSION
  | INSTABILITY
deriving DecidableEq, Repr

/-- An anomaly report.  Modelled from the spec (the schema module is not in
the provided sources): `{severity, category, action_id (optional),
description, evidence}`.  The free-text `description`/`evidence` fields play
no role in any routing or policy computation and are omitted. -/
structure AnomalyReport where
  severity : AnomalySeverity
  category : AnomalyCategory
  action_id : Option String
deriving DecidableEq, Repr

/-- Control flow decisions (`ControlDecision` in `schemas/agent_state.py`). -/
inductive ControlDecision where
  | CONTINUE
  | DEEP_TEST
  | TERMINATE
deriving DecidableEq, Repr

/-- A Python `Dict[str, float]` of per-action risk scores. -/
def RiskMap : Type := String → Option ℚ

/-- `risk_scores.get(action_id, 0.5)` — the source's default risk for an
action with no stored score. -/
def getRisk (m : RiskMap) (a : String) : ℚ :=
  (m a).getD (1/2)

/-- `risk_scores[action_id] = v` as a functional update. -/
def setRisk (m : RiskMap) (a : String) (v : ℚ) : RiskMap :=
  fun k => if k = a then some v else m k

/-- Python `xs[-n:]`: the last `n` elements of a list (the whole list when it
is shorter than `n`). -/
def lastN {α : Type} (l : List α) (n : ℕ) : List α :=
  l.drop (l.length - n)

/-- `calculate_action_coverage_score` (policies/exploration.py, lines 12-43):
1.0 for an action never executed, 0.5 for one executed exactly once,
`1/(n+1)` for `n ≥ 2` executions.  (The `epsilon` parameter of the source is
unused by its body and omitted.) -/
def calculate_action_coverage_score (action_id : String)
    (action_history : List String) : ℚ :=
  let execution_count := action_history.count action_id
  if execution_count = 0 then 1
  else if execution_count = 1 then 1/2
  else 1 / (execution_count + 1)

/-- The `action_scores` association built by `select_action_by_coverage`
(policies/exploration.py, lines 72-90): every available action whose risk
(default 0.5) does not exceed the threshold is scored
`coverage * 0.7 + (1 - risk) * 0.3`.  The Python dict is modelled as the
list of key-value pairs in insertion order; a duplicate action id in
`available_actions` produces an identical duplicate pair, which leaves both
the emptiness test and the first-maximum selection unchanged. -/
def action_scores (available_actions action_history : List String)
    (risk_scores : RiskMap) (max_risk_threshold : ℚ) : List (String × ℚ) :=
  (available_actions.filter (fun a => getRisk risk_scores a ≤ max_risk_threshold)).map
    (fun a =>
      (a, calculate_action_coverage_score a action_history * (7/10)
          + (1 - getRisk risk_scores a) * (3/10)))

/-- Python `max(action_scores.items(), key=lambda x: x[1])[0]`:
the first pair with maximal score (Python's `max` keeps the earlier element
on ties), projected to its key. -/
def max_by_score : List (String × ℚ) → Option String
  | [] => none
  | p :: ps => some (ps.foldl (fun best q => if best.2 < q.2 then q else best) p).1

/-- `select_action_by_coverage` (policies/exploration.py, lines 46-104) with
explicit recursion fuel.  The source retries itself with
`max_risk_threshold=1.0` whenever the scored candidate set is empty; if the
retry again scores nothing (possible only when a stored risk exceeds 1.0,
outside the documented `[0,1]` range) the Python recursion repeats with
identical arguments and never returns.  The outer `none` models that
divergence; `some r` models a Python return of `r` (`some none` = returned
`None`). -/
def select_action_fuel :
    ℕ → List String → List String → RiskMap → ℚ → Option (Option String)
  | 0, _, _, _, _ => none
  | fuel + 1, available_actions, action_history, risk_scores, max_risk_threshold =>
    if available_actions = [] then some none
    else
      let scores := action_scores available_actions action_history risk_scores
        max_risk_threshold
      if scores = [] then
        select_action_fuel fuel available_actions action_history risk_scores 1
      else
        some (max_by_score scores)

/-- `select_action_by_coverage`: the source makes at most one productive
recursive call before either returning or repeating itself forever, so fuel 2
is exact (see `select_action_fuel`). -/
def select_action_by_coverage (available_actions action_history : List String)
    (risk_scores : RiskMap) (max_risk_threshold : ℚ) : Option (Option String) :=
  select_action_fuel 2 available_actions action_history risk_scores max_risk_threshold

/-- Severity weights of `update_risk_score` (policies/risk.py, lines 54-58). -/
def severity_weight : AnomalySeverity → ℚ
  | .LOW => 1/5
  | .MEDIUM => 1/2
  | .HIGH => 9/10

/-- `update_risk_score` (policies/risk.py, lines 29-65): decay
`r * (1 - λ/2)` without an anomaly, pull `r + (1-r)·λ·w(severity)` toward 1
with one, clamped to `[0,1]`.  The severity string argument is modelled by
the enum (the source's `.get(severity, 0.5)` default is unreachable for enum
values). -/
def update_risk_score (current_risk : ℚ) (triggered_anomaly : Bool)
    (anomaly_severity : AnomalySeverity) (learning_rate : ℚ) : ℚ :=
  let new_risk :=
    if triggered_anomaly = false then
      current_risk * (1 - learning_rate * (1/2))
    else
      current_risk + (1 - current_risk) * learning_rate * severity_weight anomaly_severity
  max 0 (min 1 new_risk)

/-- `update_risks_from_anomalies` (policies/risk.py, lines 68-102): for each
of the last `recent_anomalies_only` anomalies carrying a truthy `action_id`
(Python's `if anomaly.action_id:` is false for both `None` and `""`),
increase that action's risk via `update_risk_score` with
`triggered_anomaly=True` and the default learning rate 0.2.  No other key is
written. -/
def update_risks_from_anomalies (current_risks : RiskMap)
    (anomalies : List AnomalyReport) (recent_anomalies_only : ℕ) : RiskMap :=
  (lastN anomalies recent_anomalies_only).foldl
    (fun m anomaly =>
      match anomaly.action_id with
      | none => m
      | some aid =>
        if aid = "" then m
        else setRisk m aid (update_risk_score (getRisk m aid) true anomaly.severity (1/5)))
    current_risks

/-- `ActionContract` (schemas/action_contract.py): the validated contract.
Only the parameter keys are inspected by validation, so `parameters` is
modelled as the list of keys of the Python dict. -/
structure ActionContract where
  action_id : String
  parameters : List String
deriving DecidableEq, Repr

/-- The forbidden parameter keys of `ActionContract.validate_parameters`
(schemas/action_contract.py, line 51). -/
def forbidden_keys : List String := ["selector", "css_selector", "xpath", "dom"]

/-- Python `str.isspace()` on one character: the characters `str.strip()`
removes.  CPython treats as whitespace the ASCII controls tab, newline,
vertical tab, form feed, carriage return, the space, the
file/group/record/unit separators x1c-x1f, next-line x85, no-break space
xa0, the Ogham space mark u1680, the Unicode space separators
u2000-u200a, the line and paragraph separators u2028/u2029, and the
narrow no-break, medium mathematical and ideographic spaces u202f,
u205f, u3000. -/
def py_is_space (c : Char) : Bool :=
  c = ' ' || c = '\t' || c = '\n' || c = '\x0b' || c = '\x0c' || c = '\r'
    || c = '\x1c' || c = '\x1d' || c = '\x1e' || c = '\x1f'
    || c = '\x85' || c = '\xa0' || c = '\u1680'
    || ('\u2000' ≤ c && c ≤ '\u200a')
    || c = '\u2028' || c = '\u2029' || c = '\u202f' || c = '\u205f' || c = '\u3000'

/-- Python `str.strip()`: drop leading and trailing whitespace (in Python's
whitespace set `py_is_space`), modelled over the underlying character
list. -/
def py_strip (s : String) : String :=
  ⟨(((s.data.dropWhile py_is_space).reverse.dropWhile py_is_space).reverse)⟩

/-- `ActionContract.validate_action_id` (schemas/action_contract.py, lines
39-45): reject an id whose whitespace-stripped form is empty, otherwise
return the stripped id.  (pydantic's `min_length=1` rejects only `""`, which
this condition subsumes.) -/
def validate_action_id (v : String) : Option String :=
  if py_strip v = "" then none else some (py_strip v)

/-- `ActionContract.validate_parameters` (schemas/action_contract.py, lines
47-60): `true` iff no key lowercases to a forbidden key. -/
def validate_parameters (params : List String) : Bool :=
  params.all (fun k => !(forbidden_keys.contains k.toLower))

/-- Construction of an `ActionContract`: pydantic runs both field validators
and raises on the first failure.  A raised `ValueError` is modelled as
`none`; a successful construction carries the stripped `action_id`. -/
def mk_action_contract (action_id : String) (params : List String) :
    Option ActionContract :=
  match validate_action_id action_id with
  | none => none
  | some v => if validate_parameters params then some ⟨v, params⟩ else none

/-- The fields of `AgentState` (schemas/agent_state.py) read by the router
and the action planner: `ui_state.available_actions`,
`execution_context.{step_count, max_steps, action_history}`,
`knowledge.risk_scores` and the append-only anomaly log.  The observation
fields are threaded separately into the invariant checks that read them. -/
structure AgentState where
  available_actions : List String
  step_count : ℕ
  max_steps : ℕ
  action_history : List String
  risk_scores : RiskMap
  anomalies : List AnomalyReport

/-- The number of HIGH-severity anomalies in a list. -/
def count_high (l : List AnomalyReport) : ℕ :=
  (l.filter (fun a => a.severity = AnomalySeverity.HIGH)).length

/-- `should_terminate` (nodes/router.py, lines 22-73): the boolean component
of the source's `(bool, reason)` pair, with the five conditions in source
order: empty offered set; step limit; ≥3 HIGH among the last 5; last 3 all
HIGH; more than 20 anomalies with a HIGH fraction above 1/2. -/
def should_terminate (s : AgentState) : Bool :=
  if s.available_actions = [] then true
  else if s.step_count ≥ s.max_steps then true
  else if count_high (lastN s.anomalies 5) ≥ 3 then true
  else if 3 ≤ s.anomalies.length
          ∧ (lastN s.anomalies 3).all (fun a => a.severity = AnomalySeverity.HIGH) then true
  else if 20 < s.anomalies.length
          ∧ (count_high s.anomalies : ℚ) / (s.anomalies.length : ℚ) > 1/2 then true
  else false

/-- `should_deep_test` (nodes/router.py, lines 76-124): the boolean
component; a MEDIUM severity or REGRESSION category among the last 3
anomalies, or a risk score above 0.75 for the most recently executed
action. -/
def should_deep_test (s : AgentState) : Bool :=
  let recent := lastN s.anomalies 3
  if recent.any (fun a => a.severity = AnomalySeverity.MEDIUM) then true
  else if recent.any (fun a => a.category = AnomalyCategory.REGRESSION) then true
  else
    match s.action_history.getLast? with
    | none => false
    | some last_action => getRisk s.risk_scores last_action > 3/4

/-- `make_routing_decision` (nodes/router.py, lines 127-158): TERMINATE
before DEEP_TEST before CONTINUE. -/
def make_routing_decision (s : AgentState) : ControlDecision :=
  if should_terminate s then ControlDecision.TERMINATE
  else if should_deep_test s then ControlDecision.DEEP_TEST
  else ControlDecision.CONTINUE

/-- `plan_next_action` (nodes/action_planner.py, lines 23-72): bail out on an
empty offered set, update the risk scores from the last 10 anomalies, select
by coverage with `max_risk_threshold=0.9`, and wrap the selection in an
`ActionContract` with empty parameters.  Python's `if not selected_action_id`
also drops an empty-string selection; a diverging selection or a raising
contract constructor is modelled as `none` (in Python the exception
propagates and no `next_action` is ever set). -/
def plan_next_action (s : AgentState) : Option ActionContract :=
  if s.available_actions = [] then none
  else
    let updated_risks := update_risks_from_anomalies s.risk_scores s.anomalies 10
    match select_action_by_coverage s.available_actions s.action_history
      updated_risks (9/10) with
    | some (some selected) =>
      if selected = "" then none else mk_action_contract selected []
    | _ => none

/-- The risk map the planner writes back to
`state.knowledge.risk_scores` (nodes/action_planner.py, lines 44-52). -/
def planner_updated_risks (s : AgentState) : RiskMap :=
  update_risks_from_anomalies s.risk_scores s.anomalies 10

/-- `BaselineMetrics` (invariants/baseline_checks.py, lines 14-52).  The
stored `std_dev` is modelled as a rational (the source stores a float; every
baseline appearing in the claims is exact). -/
structure BaselineMetrics where
  mean : ℚ
  std_dev : ℚ
  count : ℕ
deriving DecidableEq, Repr

/-- The violation flag of `check_stability_against_baseline`
(invariants/baseline_checks.py, lines 55-150): no baseline or fewer than 3
samples never violates; a zero `std_dev` violates when the deviation exceeds
1% of `|mean|`; otherwise the z-score `|x-mean|/std_dev` violates when it
exceeds `sigma_threshold`.  (The source additionally returns a
Welford-updated copy of the metrics — a square root, irrational in general —
which no claim's property reads beyond the first-observation branch, embedded
separately as `initial_baseline`.) -/
def check_stability_violated (current_value : ℚ)
    (baseline : Option BaselineMetrics) (sigma_threshold : ℚ) : Bool :=
  match baseline with
  | none => false
  | some b =>
    if b.count < 3 then false
    else if b.std_dev = 0 then
      |current_value - b.mean| > (1/100) * |b.mean|
    else
      |current_value - b.mean| / b.std_dev > sigma_threshold

/-- The metrics constructed by the `baseline is None` branch of
`check_stability_against_baseline` (invariants/baseline_checks.py, lines
76-86): `{mean = x, std_dev = 0, count = 1}`. -/
def initial_baseline (current_value : ℚ) : BaselineMetrics :=
  ⟨current_value, 0, 1⟩

/-- `check_forward_progress` (invariants/core_invariants.py, lines 156-201)
over an arbitrary observation type with decidable equality: violated iff the
history holds at least `max_identical` observations, the last `max_identical`
of them are all equal, and at least `max_identical` actions were executed. -/
def check_forward_progress {α : Type} [DecidableEq α]
    (action_history : List String) (observation_history : List α)
    (max_identical : ℕ) : Bool :=
  if observation_history.length < max_identical then false
  else
    let recent := lastN observation_history max_identical
    match recent.head? with
    | none => false
    | some first_obs =>
      if recent.all (fun o => o = first_obs)
          ∧ action_history.length ≥ max_identical then true
      else false

/-- The forward-progress branch of `detect_anomalies`
(nodes/anomaly_detector.py, lines 110-130): guarded by `step_count >= 3`, it
runs `check_forward_progress` on the two-element history
`[previous_observation, current_observation]` the node builds in place of a
maintained observation history, and on violation appends one HIGH/INSTABILITY
report attributed to the last executed action. -/
def detect_forward_progress_anomalies {α : Type} [DecidableEq α]
    (step_count : ℕ) (previous_observation current_observation : α)
    (action_history : List String) : List AnomalyReport :=
  if step_count ≥ 3 then
    if check_forward_progress action_history
        [previous_observation, current_observation] 3 then
      [⟨AnomalySeverity.HIGH, AnomalyCategory.INSTABILITY, action_history.getLast?⟩]
    else []
  else []

/-- The baseline-stability branch of `detect_anomalies`
(nodes/anomaly_detector.py, lines 152-177): one MEDIUM/REGRESSION report,
attributed to the last executed action, per extracted metric whose stability
check (σ-threshold 2.0) reports a violation.  The extracted
`(metric, value)` pairs and the stored baselines are taken as inputs; the
in-loop baseline writes touch only the metric just checked, so with the
distinct keys of the Python metrics dict they never feed back into the loop. -/
def detect_baseline_anomalies (metrics : List (String × ℚ))
    (baselines : String → Option BaselineMetrics)
    (last_action : Option String) : List AnomalyReport :=
  (metrics.filter (fun m => check_stability_violated m.2 (baselines m.1) 2)).map
    (fun _ => ⟨AnomalySeverity.MEDIUM, AnomalyCategory.REGRESSION, last_action⟩)

/-- Coverage score as the spec words it: 1.0 for an action never in the
action history, 0.5 for an action executed exactly once, `1/(n+1)` for one
executed `n ≥ 2` times.  Spec-side definition for the refinement claim about
action selection. -/
def spec_coverage (a : String) (action_history : List String) : ℚ :=
  let n := action_history.count a
  if n = 0 then 1
  else if n = 1 then 1/2
  else 1 / (n + 1)

/-- Combined score as the spec words it: `0.7·coverage + 0.3·(1-risk)`, the
risk defaulting to 0.5 for an action with no stored score.  Spec-side
definition for the refinement claim about action selection. -/
def spec_combined_score (a : String) (action_history : List String)
    (risk_scores : RiskMap) : ℚ :=
  (7/10) * spec_coverage a action_history + (3/10) * (1 - getRisk risk_scores a)

/-- Argmax over a scored candidate list with ties broken by first
occurrence: the earliest pair whose score is maximal.  Spec-side definition
for the refinement claim about action selection. -/
def argmax_first : List (String × ℚ) → Option (String × ℚ)
  | [] => none
  | p :: ps =>
    match argmax_first ps with
    | none => some p
    | some q => if q.2 ≤ p.2 then some p else some q

/-! ### Helper lemmas -/

/-- Projecting the keys out of a key-score pairing returns the key list. -/
theorem map_fst_pair (l : List String) (g : String → ℚ) :
    (l.map (fun a => (a, g a))).map Prod.fst = l := by
  induction l with
  | nil => rfl
  | cons a t ih => simp [ih]

/-- The keys of the scored-candidate list are exactly the available actions
whose risk does not exceed the threshold. -/
theorem action_scores_map_fst (avail hist : List String) (risks : RiskMap) (t : ℚ) :
    (action_scores avail hist risks t).map Prod.fst
      = avail.filter (fun a => getRisk risks a ≤ t) := by
  unfold action_scores
  exact map_fst_pair _ _

/-- The first-maximum fold returns an element of the list it scans. -/
theorem foldl_pick_mem (ps : List (String × ℚ)) (p : String × ℚ) :
    ps.foldl (fun best q => if best.2 < q.2 then q else best) p ∈ p :: ps := by
  induction ps generalizing p with
  | nil => simp
  | cons q qs ih =>
    simp only [List.foldl_cons]
    rcases List.mem_cons.mp (ih (if p.2 < q.2 then q else p)) with h1 | h1
    · rw [h1]; split <;> simp
    · simp [h1]

/-- A key returned by `max_by_score` is a key of the scored list. -/
theorem max_by_score_mem {l : List (String × ℚ)} {a : String}
    (h : max_by_score l = some a) : a ∈ l.map Prod.fst := by
  cases l with
  | nil => simp [max_by_score] at h
  | cons p ps =>
    simp only [max_by_score, Option.some.injEq] at h
    subst h
    exact List.mem_map_of_mem Prod.fst (foldl_pick_mem ps p)

/-- An action returned by `select_action_fuel` is drawn from the offered set,
at every fuel and threshold. -/
theorem select_fuel_mem :
    ∀ (fuel : ℕ) (avail hist : List String) (risks : RiskMap) (t : ℚ) (a : String),
      select_action_fuel fuel avail hist risks t = some (some a) → a ∈ avail := by
  intro fuel
  induction fuel with
  | zero => intro _ _ _ _ _ h; simp [select_action_fuel] at h
  | succ n ih =>
    intro avail hist risks t a h
    by_cases he : avail = []
    · simp [select_action_fuel, he] at h
    · simp only [select_action_fuel, if_neg he] at h
      split at h
      · exact ih avail hist risks 1 a h
      · have hmax : max_by_score (action_scores avail hist risks t) = some a :=
          Option.some.inj h
        have hmem := max_by_score_mem hmax
        rw [action_scores_map_fst] at hmem
        exact List.mem_of_mem_filter hmem

/-- A risk-update fold over anomalies none of which is attributed to `a`
leaves the stored risk of `a` unchanged. -/
theorem update_fold_preserve (a : String) :
    ∀ (l : List AnomalyReport) (m : RiskMap),
      (∀ an ∈ l, an.action_id ≠ some a) →
      (l.foldl
        (fun m anomaly =>
          match anomaly.action_id with
          | none => m
          | some aid =>
            if aid = "" then m
            else setRisk m aid (update_risk_score (getRisk m aid) true anomaly.severity (1/5)))
        m) a = m a := by
  intro l
  induction l with
  | nil => intro m _; rfl
  | cons an t ih =>
    intro m h
    have han := h an (List.mem_cons_self an t)
    have ht : ∀ x ∈ t, x.action_id ≠ some a := fun x hx => h x (List.mem_cons_of_mem _ hx)
    simp only [List.foldl_cons]
    rw [ih _ ht]
    cases hid : an.action_id with
    | none => simp
    | some aid =>
      have hne : a ≠ aid := fun e => han (by rw [hid, e])
      by_cases hz : aid = "" <;> simp [hz, setRisk, hne]

/-- The recursive first-occurrence argmax agrees with the first-maximum fold
on a non-empty list. -/
theorem argmax_first_eq_foldl (ps : List (String × ℚ)) :
    ∀ p : String × ℚ,
      argmax_first (p :: ps)
        = some (ps.foldl (fun best q => if best.2 < q.2 then q else best) p) := by
  induction ps with
  | nil => intro p; rfl
  | cons q qs ih =>
    intro p
    rw [List.foldl_cons, ← ih (if p.2 < q.2 then q else p)]
    show (match argmax_first (q :: qs) with
          | none => some p
          | some r => if r.2 ≤ p.2 then some p else some r)
       = argmax_first ((if p.2 < q.2 then q else p) :: qs)
    rw [show argmax_first ((if p.2 < q.2 then q else p) :: qs)
        = (match argmax_first qs with
          | none => some (if p.2 < q.2 then q else p)
          | some r => if r.2 ≤ (if p.2 < q.2 then q else p).2
                      then some (if p.2 < q.2 then q else p) else some r) from rfl]
    rw [show argmax_first (q :: qs)
        = (match argmax_first qs with
          | none => some q
          | some r => if r.2 ≤ q.2 then some q else some r) from rfl]
    rcases argmax_first qs with _ | r
    · dsimp only
      split_ifs <;> first | rfl | (exfalso; linarith)
    · dsimp only
      rcases le_or_lt r.2 q.2 with hrq | hrq
      · rw [if_pos hrq]
        dsimp only
        split_ifs <;> first | rfl | (exfalso; linarith)
      · rw [if_neg (not_le.mpr hrq)]
        dsimp only
        split_ifs <;> first | rfl | (exfalso; linarith)

/-- `max_by_score` is the key of the first-occurrence argmax. -/
theorem max_by_score_eq_argmax (l : List (String × ℚ)) :
    max_by_score l = (argmax_first l).map Prod.fst := by
  cases l with
  | nil => rfl
  | cons p ps => rw [argmax_first_eq_foldl ps p]; rfl

/-- Congruence for `List.map` under a pointwise function identity. -/
theorem map_eq_of_funext {α β : Type} (f g : α → β) (h : ∀ a, f a = g a) :
    ∀ l : List α, l.map f = l.map g := by
  intro l
  induction l with
  | nil => rfl
  | cons a t ih => simp [h a, ih]

/-- The source scoring list is the spec-worded scoring list. -/
theorem action_scores_eq_spec (avail hist : List String) (risks : RiskMap) (t : ℚ) :
    action_scores avail hist risks t
      = (avail.filter (fun a => getRisk risks a ≤ t)).map
          (fun a => (a, spec_combined_score a hist risks)) := by
  unfold action_scores
  refine map_eq_of_funext _ _ (fun a => ?_) _
  have hc : calculate_action_coverage_score a hist = spec_coverage a hist := rfl
  simp only [spec_combined_score, hc]
  exact Prod.ext rfl (by ring)


/-- Unfolding of `update_risk_score` in the no-anomaly case. -/
theorem update_risk_score_false (r lr : ℚ) (sev : AnomalySeverity) :
    update_risk_score r false sev lr = max 0 (min 1 (r * (1 - lr * (1/2)))) := rfl

/-- Unfolding of `update_risk_score` in the attributed-anomaly case. -/
theorem update_risk_score_true (r lr : ℚ) (sev : AnomalySeverity) :
    update_risk_score r true sev lr
      = max 0 (min 1 (r + (1 - r) * lr * severity_weight sev)) := rfl

/-! ### Claim theorems -/

/-- C2: for every AgentState whose available-action set is empty, the Control
Router decides TERMINATE, regardless of the anomaly log, step counters or
risk scores; the empty-set rule is the first condition evaluated, before
every other routing condition. -/
theorem C2_empty_actions_terminate (s : AgentState)
    (h : s.available_actions = []) :
    make_routing_decision s = ControlDecision.TERMINATE := by
  simp [make_routing_decision, should_terminate, h]

/-- C2 witness: a state whose anomaly log alone would suggest DEEP_TEST and
whose step budget is untouched still terminates on an empty offered set. -/
theorem C2_empty_actions_terminate_witness :
    make_routing_decision
      ⟨[], 0, 100, ["a"], (fun _ => none),
        [⟨AnomalySeverity.MEDIUM, AnomalyCategory.REGRESSION, some "a"⟩]⟩
      = ControlDecision.TERMINATE :=
  C2_empty_actions_terminate _ rfl

/-- C3: with a stored baseline of count ≥ 3 and positive std-dev the
stability check violates exactly when `|x - mean| / std_dev` exceeds the
σ-threshold; with count < 3 it never violates; on the first observation it
does not violate and the initialized metrics are `{mean = x, std_dev = 0,
count = 1}`; and on baseline {200, 50, 10} the value 220 passes while 500
violates (threshold 2.0). -/
theorem C3_baseline_stability :
    (∀ (x σ : ℚ) (b : BaselineMetrics), 3 ≤ b.count → 0 < b.std_dev →
      (check_stability_violated x (some b) σ = true ↔ |x - b.mean| / b.std_dev > σ))
    ∧ (∀ (x σ : ℚ) (b : BaselineMetrics), b.count < 3 →
      check_stability_violated x (some b) σ = false)
    ∧ (∀ x σ : ℚ, check_stability_violated x none σ = false
        ∧ initial_baseline x = ⟨x, 0, 1⟩)
    ∧ check_stability_violated 220 (some ⟨200, 50, 10⟩) 2 = false
    ∧ check_stability_violated 500 (some ⟨200, 50, 10⟩) 2 = true := by
  refine ⟨?_, ?_, ?_, ?_, ?_⟩
  · intro x σ b hc hs
    simp only [check_stability_violated]
    rw [if_neg (by omega), if_neg hs.ne']
    exact decide_eq_true_iff
  · intro x σ b hc
    simp only [check_stability_violated]
    rw [if_pos hc]
  · intro x σ
    exact ⟨rfl, rfl⟩
  · simp only [check_stability_violated]
    norm_num
  · simp only [check_stability_violated]
    norm_num

/-- C3 witness: the σ-branch applied at value 500 against baseline
{200, 50, 10}, and the small-sample branch at count 2. -/
theorem C3_baseline_stability_witness :
    check_stability_violated 500 (some ⟨200, 50, 10⟩) 2 = true
    ∧ check_stability_violated 10 (some ⟨0, 1, 2⟩) 2 = false :=
  ⟨(C3_baseline_stability.1 500 2 ⟨200, 50, 10⟩ (by norm_num) (by norm_num)).mpr
      (by norm_num),
    C3_baseline_stability.2.1 10 2 ⟨0, 1, 2⟩ (by norm_num)⟩

/-- C4 counterexample: a cycle whose last executed action "a" has no
anomaly attributed to it leaves its risk score at 1/2 — the planner's risk
update does not apply the decay `r·(1-λ/2) = 9/20` the claim requires. -/
theorem C4_risk_decay_counterexample :
    planner_updated_risks
        ⟨["a"], 1, 10, ["a"], (fun k => if k = "a" then some (1/2) else none), []⟩ "a"
      = some (1/2)
    ∧ update_risk_score (1/2) false AnomalySeverity.MEDIUM (1/5) = 9/20
    ∧ ((9/20 : ℚ) ≠ (1/2 : ℚ)) := by
  refine ⟨rfl, ?_, by norm_num⟩
  rw [update_risk_score_false,
    min_eq_right (by norm_num), max_eq_right (by norm_num)]
  norm_num

/-- C4 (amended): the decay rule `r' = r·(1-λ/2)` is implemented by
`update_risk_score` for the no-anomaly case, but the reasoning cycle never
invokes it: the cycle's risk update processes only attributed anomalies and
leaves the risk of every action without one in the recent window unchanged. -/
theorem C4_risk_decay :
    (∀ (r : ℚ) (sev : AnomalySeverity), 0 ≤ r → r ≤ 1 →
      update_risk_score r false sev (1/5) = r * (1 - (1/5) * (1/2)))
    ∧ (∀ (s : AgentState) (a : String),
      (∀ an ∈ lastN s.anomalies 10, an.action_id ≠ some a) →
      planner_updated_risks s a = s.risk_scores a) := by
  constructor
  · intro r sev h0 h1
    rw [update_risk_score_false,
      min_eq_right (by nlinarith), max_eq_right (by nlinarith)]
  · intro s a h
    exact update_fold_preserve a (lastN s.anomalies 10) s.risk_scores h

/-- C4 witness: the decay formula at r = 1/2, and an unattributed action's
risk surviving a cycle update unchanged. -/
theorem C4_risk_decay_witness :
    update_risk_score (1/2) false AnomalySeverity.HIGH (1/5)
        = (1/2) * (1 - (1/5) * (1/2))
    ∧ planner_updated_risks ⟨["a"], 1, 10, ["a"], (fun _ => none), []⟩ "a" = none :=
  ⟨C4_risk_decay.1 (1/2) AnomalySeverity.HIGH (by norm_num) (by norm_num),
    C4_risk_decay.2 ⟨["a"], 1, 10, ["a"], (fun _ => none), []⟩ "a"
      (by simp [lastN])⟩

/-- C7: at a fully stalled input (identical previous and current
observations, three executed actions, step count 5) the anomaly-detector
cycle emits no INSTABILITY anomaly, although `check_forward_progress` on the
true three-element observation history reports the stall; indeed the
detector's branch returns the empty list on every input, because it hands
the check a two-element history while the check requires three. -/
theorem C7_forward_progress_never_fires :
    detect_forward_progress_anomalies 5 [("a", (1 : ℤ))] [("a", 1)] ["x", "y", "z"] = []
    ∧ check_forward_progress ["x", "y", "z"]
        [[("a", (1 : ℤ))], [("a", 1)], [("a", 1)]] 3 = true
    ∧ ∀ (step : ℕ) (prev cur : List (String × ℤ)) (hist : List String),
        detect_forward_progress_anomalies step prev cur hist = [] := by
  refine ⟨by decide, by decide, ?_⟩
  intro step prev cur hist
  simp [detect_forward_progress_anomalies, check_forward_progress]

/-- C8: with an attributed anomaly the risk update never decreases the score
and never reaches 1 from below; without one it never increases the score and
never reaches 0 from above; every returned value lies in [0, 1]. -/
theorem C8_risk_clamping (r : ℚ) (sev : AnomalySeverity)
    (h0 : 0 ≤ r) (h1 : r ≤ 1) :
    (r ≤ update_risk_score r true sev (1/5)
      ∧ (r < 1 → update_risk_score r true sev (1/5) < 1)
      ∧ 0 ≤ update_risk_score r true sev (1/5)
      ∧ update_risk_score r true sev (1/5) ≤ 1)
    ∧ (update_risk_score r false sev (1/5) ≤ r
      ∧ (0 < r → 0 < update_risk_score r false sev (1/5))
      ∧ 0 ≤ update_risk_score r false sev (1/5)
      ∧ update_risk_score r false sev (1/5) ≤ 1) := by
  have hw0 : 0 < severity_weight sev := by
    cases sev <;> norm_num [severity_weight]
  have hw1 : severity_weight sev ≤ 9/10 := by
    cases sev <;> norm_num [severity_weight]
  constructor
  · have hkey : update_risk_score r true sev (1/5)
        = r + (1 - r) * (1/5) * severity_weight sev := by
      rw [update_risk_score_true,
        min_eq_right (by nlinarith), max_eq_right (by nlinarith)]
    refine ⟨?_, ?_, ?_, ?_⟩ <;> rw [hkey]
    · nlinarith
    · intro hr1
      nlinarith [mul_pos (by linarith : (0:ℚ) < 1 - r)
        (by linarith : (0:ℚ) < 1 - (1/5) * severity_weight sev)]
    · nlinarith
    · nlinarith
  · have hkey : update_risk_score r false sev (1/5)
        = r * (1 - (1/5) * (1/2)) := by
      rw [update_risk_score_false,
        min_eq_right (by nlinarith), max_eq_right (by nlinarith)]
    refine ⟨?_, ?_, ?_, ?_⟩ <;> rw [hkey]
    · linarith
    · intro hr0
      linarith
    · linarith
    · linarith

/-- C8 witness: the clamped monotonicity facts at r = 1/2 with a
HIGH-severity anomaly. -/
theorem C8_risk_clamping_witness :
    (1/2 : ℚ) ≤ update_risk_score (1/2) true AnomalySeverity.HIGH (1/5)
    ∧ update_risk_score (1/2) false AnomalySeverity.HIGH (1/5) ≤ (1/2 : ℚ) :=
  ⟨(C8_risk_clamping (1/2) AnomalySeverity.HIGH (by norm_num) (by norm_num)).1.1,
    (C8_risk_clamping (1/2) AnomalySeverity.HIGH (by norm_num) (by norm_num)).2.1⟩

/-- C9: construction of an ActionContract fails exactly when the action id
strips to the empty string or some parameter key lowercases to a forbidden
key (selector, css_selector, xpath, dom); failure is a synchronous `none`
(a pydantic ValueError), never a silently accepted contract. -/
theorem C9_contract_validation (action_id : String) (params : List String) :
    mk_action_contract action_id params = none
      ↔ py_strip action_id = "" ∨ ∃ k ∈ params, k.toLower ∈ forbidden_keys := by
  have hval : validate_parameters params = true
      ↔ ∀ k ∈ params, k.toLower ∉ forbidden_keys := by
    simp [validate_parameters]
  unfold mk_action_contract validate_action_id
  by_cases hs : py_strip action_id = ""
  · simp [hs]
  · rw [if_neg hs]
    cases hvp : validate_parameters params with
    | true =>
      have hall := hval.mp hvp
      constructor
      · intro h
        simp at h
      · rintro (h | ⟨k, hk, hmem⟩)
        · exact absurd h hs
        · exact absurd hmem (hall k hk)
    | false =>
      have hex : ∃ k ∈ params, k.toLower ∈ forbidden_keys := by
        by_contra hno
        push_neg at hno
        rw [hval.mpr hno] at hvp
        cases hvp
      simp [hex]

/-- C10: every anomaly the baseline-stability branch emits carries severity
MEDIUM, category REGRESSION and the last executed action; a MEDIUM anomaly
in the last-3 window satisfies the DEEP_TEST conditions; and a log free of
HIGH-severity anomalies never satisfies the anomaly-based termination
rules. -/
theorem C10_baseline_anomaly_routing :
    (∀ (metrics : List (String × ℚ)) (baselines : String → Option BaselineMetrics)
        (last_action : Option String) (rep : AnomalyReport),
      rep ∈ detect_baseline_anomalies metrics baselines last_action →
      rep.severity = AnomalySeverity.MEDIUM
        ∧ rep.category = AnomalyCategory.REGRESSION
        ∧ rep.action_id = last_action)
    ∧ (∀ s : AgentState,
      (∃ rep ∈ lastN s.anomalies 3, rep.severity = AnomalySeverity.MEDIUM) →
      should_deep_test s = true)
    ∧ (∀ s : AgentState, s.available_actions ≠ [] →
      s.step_count < s.max_steps →
      (∀ rep ∈ s.anomalies, rep.severity ≠ AnomalySeverity.HIGH) →
      should_terminate s = false) := by
  refine ⟨?_, ?_, ?_⟩
  · intro metrics baselines last_action rep hmem
    rcases List.mem_map.mp hmem with ⟨m, hm, hrep⟩
    rw [← hrep]
    exact ⟨rfl, rfl, rfl⟩
  · intro s h
    rcases h with ⟨rep, hmem, hsev⟩
    have hany : (lastN s.anomalies 3).any
        (fun a => a.severity = AnomalySeverity.MEDIUM) = true :=
      List.any_eq_true.mpr ⟨rep, hmem, by simp [hsev]⟩
    simp [should_deep_test, hany]
  · intro s hne hstep hnohigh
    have hsub5 : ∀ x ∈ lastN s.anomalies 5, x ∈ s.anomalies :=
      fun x hx => List.drop_subset _ _ hx
    have hsub3 : ∀ x ∈ lastN s.anomalies 3, x ∈ s.anomalies :=
      fun x hx => List.drop_subset _ _ hx
    have hc5 : count_high (lastN s.anomalies 5) = 0 := by
      unfold count_high
      rw [List.length_eq_zero]
      rw [List.filter_eq_nil_iff]
      intro x hx
      simp [hnohigh x (hsub5 x hx)]
    have hcfull : count_high s.anomalies = 0 := by
      unfold count_high
      rw [List.length_eq_zero]
      rw [List.filter_eq_nil_iff]
      intro x hx
      simp [hnohigh x hx]
    have h4 : ¬(3 ≤ s.anomalies.length
        ∧ (lastN s.anomalies 3).all
            (fun a => a.severity = AnomalySeverity.HIGH) = true) := by
      rintro ⟨hlen, hall⟩
      have hlen3 : (lastN s.anomalies 3).length = 3 := by
        unfold lastN
        rw [List.length_drop]
        omega
      rcases hL : lastN s.anomalies 3 with _ | ⟨x, xs⟩
      · rw [hL] at hlen3
        simp at hlen3
      · have hx : x ∈ lastN s.anomalies 3 := by rw [hL]; exact List.mem_cons_self x xs
        have := List.all_eq_true.mp hall x hx
        simp at this
        exact hnohigh x (hsub3 x hx) this
    have h5 : ¬(20 < s.anomalies.length
        ∧ (count_high s.anomalies : ℚ) / (s.anomalies.length : ℚ) > 1/2) := by
      rintro ⟨_, hr⟩
      rw [hcfull] at hr
      norm_num at hr
    simp only [should_terminate, if_neg hne, if_neg (by omega : ¬s.step_count ≥ s.max_steps),
      if_neg (by omega : ¬count_high (lastN s.anomalies 5) ≥ 3), if_neg h4, if_neg h5]

/-- C10 witness: a concrete baseline violation (value 500 against baseline
{200, 50, 10}) yields the MEDIUM/REGRESSION report attributed to the last
action; a state whose log holds exactly that report activates DEEP_TEST and
does not terminate. -/
theorem C10_baseline_anomaly_routing_witness :
    ((⟨AnomalySeverity.MEDIUM, AnomalyCategory.REGRESSION, some "a"⟩
        : AnomalyReport).severity = AnomalySeverity.MEDIUM
      ∧ (⟨AnomalySeverity.MEDIUM, AnomalyCategory.REGRESSION, some "a"⟩
        : AnomalyReport).category = AnomalyCategory.REGRESSION
      ∧ (⟨AnomalySeverity.MEDIUM, AnomalyCategory.REGRESSION, some "a"⟩
        : AnomalyReport).action_id = some "a")
    ∧ should_deep_test
        ⟨["a"], 0, 10, ["a"], (fun _ => none),
          [⟨AnomalySeverity.MEDIUM, AnomalyCategory.REGRESSION, some "a"⟩]⟩ = true
    ∧ should_terminate
        ⟨["a"], 0, 10, ["a"], (fun _ => none),
          [⟨AnomalySeverity.MEDIUM, AnomalyCategory.REGRESSION, some "a"⟩]⟩ = false :=
  ⟨C10_baseline_anomaly_routing.1 [("response_time_ms", 500)]
      (fun _ => some ⟨200, 50, 10⟩) (some "a")
      ⟨AnomalySeverity.MEDIUM, AnomalyCategory.REGRESSION, some "a"⟩
      (by simp [detect_baseline_anomalies, check_stability_violated]; norm_num),
    C10_baseline_anomaly_routing.2.1
      ⟨["a"], 0, 10, ["a"], (fun _ => none),
        [⟨AnomalySeverity.MEDIUM, AnomalyCategory.REGRESSION, some "a"⟩]⟩
      (by exact ⟨⟨AnomalySeverity.MEDIUM, AnomalyCategory.REGRESSION, some "a"⟩,
        by simp [lastN], rfl⟩),
    C10_baseline_anomaly_routing.2.2
      ⟨["a"], 0, 10, ["a"], (fun _ => none),
        [⟨AnomalySeverity.MEDIUM, AnomalyCategory.REGRESSION, some "a"⟩]⟩
      (by simp) (by norm_num) (by decide)⟩

/-- With every stored risk within the documented `[0,1]` range the relaxed
threshold 1.0 filters out nothing, so a non-empty offered set scores a
non-empty candidate list. -/
theorem action_scores_one_ne_nil (avail hist : List String) (risks : RiskMap)
    (hrisk : ∀ a, getRisk risks a ≤ 1) (hne : avail ≠ []) :
    action_scores avail hist risks 1 ≠ [] := by
  intro h
  have hm := congrArg (List.map Prod.fst) h
  rw [action_scores_map_fst] at hm
  rw [List.filter_eq_self.mpr (fun a _ => by simp [hrisk a])] at hm
  exact hne (by simpa using hm)

/-- C1 counterexample: with the single offered action " a" (leading blank)
the planner returns a contract whose id is the stripped "a", which is not an
element of the offered set. -/
theorem C1_strip_counterexample :
    plan_next_action ⟨[" a"], 0, 10, [], (fun _ => none), []⟩ = some ⟨"a", []⟩
    ∧ ("a" : String) ∉ ([" a"] : List String) := by
  constructor
  · simp [plan_next_action, select_action_by_coverage, select_action_fuel, action_scores,
      update_risks_from_anomalies, lastN, getRisk, calculate_action_coverage_score,
      max_by_score, mk_action_contract, validate_action_id, validate_parameters,
      forbidden_keys]
    norm_num
    decide
  · decide

/-- C1 (amended): every planned contract id is the whitespace-stripped form
of some element of the offered set; in particular, whenever every offered id
equals its stripped form (no leading or trailing whitespace), the contract id
is itself an element of the offered set. -/
theorem C1_planner_membership (s : AgentState) (c : ActionContract)
    (h : plan_next_action s = some c) :
    (∃ a ∈ s.available_actions, c.action_id = py_strip a)
    ∧ ((∀ a ∈ s.available_actions, py_strip a = a) →
      c.action_id ∈ s.available_actions) := by
  rw [show plan_next_action s
      = (if s.available_actions = [] then none
        else
          match select_action_by_coverage s.available_actions s.action_history
            (update_risks_from_anomalies s.risk_scores s.anomalies 10) (9/10) with
          | some (some selected) =>
            if selected = "" then none else mk_action_contract selected []
          | _ => none) from rfl] at h
  by_cases he : s.available_actions = []
  · rw [if_pos he] at h
    cases h
  · rw [if_neg he] at h
    rcases hsel : select_action_by_coverage s.available_actions s.action_history
        (update_risks_from_anomalies s.risk_scores s.anomalies 10) (9/10)
      with _ | osel
    · rw [hsel] at h
      cases h
    · rcases osel with _ | selected
      · rw [hsel] at h
        cases h
      · rw [hsel] at h
        dsimp only at h
        by_cases hz : selected = ""
        · rw [if_pos hz] at h
          cases h
        · rw [if_neg hz] at h
          have hmem : selected ∈ s.available_actions :=
            select_fuel_mem 2 _ _ _ _ selected hsel
          unfold mk_action_contract validate_action_id at h
          by_cases hstrip : py_strip selected = ""
          · rw [if_pos hstrip] at h
            cases h
          · rw [if_neg hstrip] at h
            have hc : c = ⟨py_strip selected, []⟩ := by
              have hvp : validate_parameters ([] : List String) = true := rfl
              simp only [hvp] at h
              simp at h
              exact h.symm
            constructor
            · exact ⟨selected, hmem, by rw [hc]⟩
            · intro hids
              rw [hc]
              show py_strip selected ∈ s.available_actions
              rw [hids selected hmem]
              exact hmem

/-- C1 witness: a planned contract id is the stripped form of an offered id,
and with whitespace-free offered ids it is itself offered. -/
theorem C1_planner_membership_witness :
    (∃ a ∈ (["a", "b"] : List String),
      (⟨"a", []⟩ : ActionContract).action_id = py_strip a)
    ∧ ((∀ a ∈ (["a", "b"] : List String), py_strip a = a) →
      (⟨"a", []⟩ : ActionContract).action_id ∈ (["a", "b"] : List String)) := by
  apply C1_planner_membership ⟨["a", "b"], 0, 10, [], (fun _ => none), []⟩ ⟨"a", []⟩
  simp [plan_next_action, select_action_by_coverage, select_action_fuel,
    action_scores, update_risks_from_anomalies, lastN, getRisk,
    calculate_action_coverage_score, max_by_score, mk_action_contract,
    validate_action_id, validate_parameters, forbidden_keys]
  norm_num
  decide

/-- C5: scoring excludes exactly the offered actions whose risk exceeds the
threshold; an exclusion-emptied candidate set causes exactly one retry with
the threshold relaxed to 1.0; and with risks in the documented [0,1] range
the selection returns None exactly on an empty offered set (and always
returns). -/
theorem C5_risk_filter_retry :
    (∀ (avail hist : List String) (risks : RiskMap) (t : ℚ),
      (action_scores avail hist risks t).map Prod.fst
        = avail.filter (fun a => getRisk risks a ≤ t))
    ∧ (∀ (avail hist : List String) (risks : RiskMap) (t : ℚ), avail ≠ [] →
      action_scores avail hist risks t = [] →
      select_action_by_coverage avail hist risks t
        = select_action_fuel 1 avail hist risks 1)
    ∧ (∀ (avail hist : List String) (risks : RiskMap) (t : ℚ),
      (∀ a, getRisk risks a ≤ 1) →
      ((select_action_by_coverage avail hist risks t = some none ↔ avail = [])
        ∧ select_action_by_coverage avail hist risks t ≠ none)) := by
  refine ⟨?_, ?_, ?_⟩
  · intro avail hist risks t
    exact action_scores_map_fst avail hist risks t
  · intro avail hist risks t hne hsc
    show (if avail = [] then some none
      else if action_scores avail hist risks t = []
        then select_action_fuel 1 avail hist risks 1
        else some (max_by_score (action_scores avail hist risks t)))
      = select_action_fuel 1 avail hist risks 1
    rw [if_neg hne, if_pos hsc]
  · intro avail hist risks t hrisk
    by_cases he : avail = []
    · subst he
      constructor
      · simp [select_action_by_coverage, select_action_fuel]
      · simp [select_action_by_coverage, select_action_fuel]
    · have hsome : ∃ x, select_action_by_coverage avail hist risks t = some (some x) := by
        show ∃ x, (if avail = [] then some none
          else if action_scores avail hist risks t = []
            then select_action_fuel 1 avail hist risks 1
            else some (max_by_score (action_scores avail hist risks t)))
          = some (some x)
        rw [if_neg he]
        by_cases hsc : action_scores avail hist risks t = []
        · rw [if_pos hsc]
          show ∃ x, (if avail = [] then some none
            else if action_scores avail hist risks 1 = []
              then select_action_fuel 0 avail hist risks 1
              else some (max_by_score (action_scores avail hist risks 1)))
            = some (some x)
          rw [if_neg he, if_neg (action_scores_one_ne_nil avail hist risks hrisk he)]
          rcases hL : action_scores avail hist risks 1 with _ | ⟨p, ps⟩
          · exact absurd hL (action_scores_one_ne_nil avail hist risks hrisk he)
          · exact ⟨_, rfl⟩
        · rw [if_neg hsc]
          rcases hL : action_scores avail hist risks t with _ | ⟨p, ps⟩
          · exact absurd hL hsc
          · exact ⟨_, rfl⟩
      rcases hsome with ⟨x, hx⟩
      rw [hx]
      constructor
      · constructor
        · intro hcontra
          cases hcontra
        · intro hcontra
          exact absurd hcontra he
      · intro hcontra
        cases hcontra

/-- C5 witness: with a default-risk singleton offered set the selection
returns an action, and returns None exactly when the offered set is
empty. -/
theorem C5_risk_filter_retry_witness :
    (select_action_by_coverage ["a"] [] (fun _ => none) (9/10) = some none
        ↔ (["a"] : List String) = [])
    ∧ select_action_by_coverage ["a"] [] (fun _ => none) (9/10) ≠ none :=
  C5_risk_filter_retry.2.2 ["a"] [] (fun _ => none) (9/10)
    (fun a => by simp only [getRisk, Option.getD_none]; norm_num)

/-- C6: on a non-empty scored candidate list, the selected action is the
first-occurrence argmax of the spec-worded combined score
`0.7·coverage + 0.3·(1-risk)` over the non-excluded candidates (risk
defaulting to 0.5 for unseen actions), so selection is deterministic. -/
theorem C6_argmax_selection (avail hist : List String) (risks : RiskMap) (t : ℚ)
    (hne : action_scores avail hist risks t ≠ []) :
    select_action_by_coverage avail hist risks t
      = some ((argmax_first
          ((avail.filter (fun a => getRisk risks a ≤ t)).map
            (fun a => (a, spec_combined_score a hist risks)))).map Prod.fst) := by
  have havail : avail ≠ [] := by
    intro he
    subst he
    exact hne rfl
  show (if avail = [] then some none
    else if action_scores avail hist risks t = []
      then select_action_fuel 1 avail hist risks 1
      else some (max_by_score (action_scores avail hist risks t)))
    = _
  rw [if_neg havail, if_neg hne, max_by_score_eq_argmax, action_scores_eq_spec]

/-- C6 witness: with offered set [a, b], history [b] and no stored risks,
the selection is computed by the spec-worded argmax. -/
theorem C6_argmax_selection_witness :
    select_action_by_coverage ["a", "b"] ["b"] (fun _ => none) (9/10)
      = some ((argmax_first
          (((["a", "b"] : List String).filter
              (fun a => getRisk (fun _ => none) a ≤ (9/10))).map
            (fun a => (a, spec_combined_score a ["b"] (fun _ => none))))).map Prod.fst) :=
  C6_argmax_selection ["a", "b"] ["b"] (fun _ => none) (9/10)
    (by simp [action_scores, getRisk]; norm_num)
